import Mathlib

/-!
Verification of the zodkit parsing helpers (`src/src/lib/parsers.ts`, and the
earlier variant in `src/unnamed/part_001`).

The module under verification normalizes three raw input shapes
(`URLSearchParams`, `FormData`, `RouteParams` — each optionally wrapped in a
SvelteKit `RequestEvent`) into a plain string-keyed record, hands the record to
a zod schema, and shapes the validation outcome either as a returned value
(throwing a 400 error on failure: the strict operations) or as a tagged
success/failure object (the safe operations).

Shallow embedding conventions:
* A JavaScript string-keyed object is an insertion-ordered association list
  `List (String × _)`; property read is first-match lookup, property write
  replaces the first matching entry in place or appends a new one.
* The values such an object holds here are only strings, arrays of strings, or
  `undefined`; `JsValue` covers exactly these.
* zod is an external library.  Only the fragment the repository and its tests
  exercise is modelled: `z.object` over shapes whose fields are `z.string()`
  or `z.number({ coerce: true })`, with zod v3 semantics (coercion via
  JavaScript `Number(...)`, `"Expected number, received nan"` /
  `"Expected string, received array"` / `"Required"` issue messages, unknown
  keys stripped).  A failed parse is represented directly by its
  `flatten().fieldErrors` map, because that map is the only part of the
  `ZodError` the repository ever reads.
* `Number(string)` is modelled on the decimal-integer subset (optionally
  signed; the empty string coerces to 0); every string outside the subset is
  NaN, which matches the inputs the claims exercise.
* `async`/`await` at the form-data body read is elided: `getFormData` is
  modelled from the point where the form entry list is available, as a pure
  function of those entries.
-/

/-- A JavaScript value that can occur in the records this library builds:
a string, an array of strings, or `undefined`. -/
inductive JsValue where
  | str : String → JsValue
  | strList : List String → JsValue
  | undef : JsValue
deriving DecidableEq, Repr

/-- First-match lookup in a JS object modelled as an association list
(`obj[key]`, yielding `undefined` as `none` when the key is absent). -/
def jsLookup : List (String × JsValue) → String → Option JsValue
  | [], _ => none
  | (k, v) :: rest, key => if k = key then some v else jsLookup rest key

/-- JS property write `obj[key] = v`: replaces the first entry with that key
in place, or appends a fresh entry when the key is absent. -/
def jsSet : List (String × JsValue) → String → JsValue → List (String × JsValue)
  | [], key, v => [(key, v)]
  | (k, w) :: rest, key, v =>
      if k = key then (k, v) :: rest else (k, w) :: jsSet rest key v

/-- JavaScript truthiness of the values stored in the canonical mapping:
`undefined` and the empty string are falsy; every other string and every
array (even an empty one) is truthy. -/
def jsTruthy : JsValue → Bool
  | .str s => !s.isEmpty
  | .strList _ => true
  | .undef => false

/-- `Array.isArray`. -/
def jsIsArray : JsValue → Bool
  | .strList _ => true
  | _ => false

/-- One iteration of the loop body of `getSearchParams`
(`src/src/lib/parsers.ts` lines 18–25):

```
const current = params[key];
if (current && Array.isArray(current)) {
    current.push(value);
} else {
    params[key] = current ? [current, value] : value;
}
```
-/
def insertPair (params : List (String × JsValue)) (key value : String) :
    List (String × JsValue) :=
  match jsLookup params key with
  | some (.strList l) => jsSet params key (.strList (l ++ [value]))
  | some (.str s) =>
      if s.isEmpty then jsSet params key (.str value)
      else jsSet params key (.strList [s, value])
  | some .undef => jsSet params key (.str value)
  | none => jsSet params key (.str value)

/-- Collapse an ordered list of `(key, value)` pairs into the canonical
mapping, exactly as the `for (const [key, value] of searchParams)` loop of
`getSearchParams` does. -/
def collapsePairs (pairs : List (String × String)) : List (String × JsValue) :=
  pairs.foldl (fun params kv => insertPair params kv.1 kv.2) []

/-- A SvelteKit `RequestEvent`, restricted to the three attributes this
module reads: `url.searchParams` (as its ordered pair list), the form entries
produced by `await request.formData()`, and `params`. -/
structure RequestEventM where
  urlSearchParams : List (String × String)
  requestFormData : List (String × String)
  params : List (String × Option String)
deriving DecidableEq, Repr

/-- The argument of `getSearchParams`: `URLSearchParams | RequestEvent`. -/
inductive SearchSource where
  | urlSearchParams : List (String × String) → SearchSource
  | requestEvent : RequestEventM → SearchSource
deriving DecidableEq, Repr

/-- `getSearchParams` (`src/src/lib/parsers.ts` lines 13–28): pick the pair
list from the source (`data instanceof URLSearchParams ? data :
data.url.searchParams`) and collapse it. -/
def getSearchParams : SearchSource → List (String × JsValue)
  | .urlSearchParams l => collapsePairs l
  | .requestEvent e => collapsePairs e.urlSearchParams

/-- The argument of `getFormData`: `FormData | RequestEvent`. -/
inductive FormSource where
  | formData : List (String × String) → FormSource
  | requestEvent : RequestEventM → FormSource
deriving DecidableEq, Repr

/-- `getFormData` (`src/src/lib/parsers.ts` lines 30–34): obtain the form
entry list (directly, or by awaiting `data.request.formData()`), rebuild a
`URLSearchParams` from it (which preserves the entries and their order), and
hand it to the same collapsing loop as the query-string path. -/
def getFormData : FormSource → List (String × JsValue)
  | .formData fd => collapsePairs fd
  | .requestEvent e => collapsePairs e.requestFormData

/-- The per-field zod schemas the repository's tests exercise:
`z.string()` and `z.number({ coerce: true })`. -/
inductive FieldSchema where
  | string : FieldSchema
  | numberCoerce : FieldSchema
deriving DecidableEq, Repr

/-- A parsed output value: a string, or a coerced number. -/
inductive DataVal where
  | str : String → DataVal
  | num : Int → DataVal
deriving DecidableEq, Repr

/-- Decimal digit run → value, `none` when empty or a non-digit occurs. -/
def decDigits (cs : List Char) : Option Nat :=
  if cs ≠ [] ∧ cs.all Char.isDigit then
    some (cs.foldl (fun a c => a * 10 + (c.toNat - 48)) 0)
  else none

/-- JavaScript `Number(string)` on the decimal-integer subset: the empty
string is 0, an optionally `-`-signed digit run is its value, everything
else is NaN (`none`). -/
def jsStringToNumber (s : String) : Option Int :=
  match s.data with
  | [] => some 0
  | '-' :: rest => (decDigits rest).map (fun n => -(n : Int))
  | cs => (decDigits cs).map (fun n => (n : Int))

/-- JavaScript `Number(v)` for the values a field can receive (zod v3 applies
it to whatever is present when `coerce: true`): absent keys and `undefined`
are NaN, strings go through `Number(string)`, a one-element array coerces
through its single element, longer arrays are NaN. -/
def jsNumber : Option JsValue → Option Int
  | none => none
  | some .undef => none
  | some (.str s) => jsStringToNumber s
  | some (.strList [s]) => jsStringToNumber s
  | some (.strList _) => none

/-- Validate one field of an object shape against the (possibly absent)
value stored under its key, producing the parsed value or the zod v3 issue
message for that field. -/
def validateField : FieldSchema → Option JsValue → Except String DataVal
  | .string, some (.str s) => .ok (.str s)
  | .string, some (.strList _) => .error "Expected string, received array"
  | .string, some .undef => .error "Required"
  | .string, none => .error "Required"
  | .numberCoerce, v =>
      match jsNumber v with
      | some n => .ok (.num n)
      | none => .error "Expected number, received nan"

/-- Walk an object shape over an input record, splitting the fields into the
parsed record (unknown input keys stripped, as zod does by default) and the
`flatten().fieldErrors` map of the failing fields, both in shape order. -/
def validateFields (input : List (String × JsValue)) :
    List (String × FieldSchema) →
      List (String × DataVal) × List (String × List String)
  | [] => ([], [])
  | (k, fs) :: rest =>
      let r := validateFields input rest
      match validateField fs (jsLookup input k) with
      | .ok v => ((k, v) :: r.1, r.2)
      | .error m => (r.1, (k, [m]) :: r.2)

/-- The outcome of `schema.safeParse(data)`.  A failure is represented by its
`flatten().fieldErrors` map — the only part of the `ZodError` this repository
reads. -/
inductive SafeParseResult where
  | success : List (String × DataVal) → SafeParseResult
  | failure : List (String × List String) → SafeParseResult
deriving DecidableEq, Repr

/-- A zod object schema (`ZodObject`), an instance of `ZodType`, carrying its
shape. -/
structure ZodObjectM where
  shape : List (String × FieldSchema)
deriving DecidableEq, Repr

/-- `t.safeParse(data)` for an object schema: success iff no field fails. -/
def zodSafeParse (t : ZodObjectM) (input : List (String × JsValue)) :
    SafeParseResult :=
  match validateFields input t.shape with
  | (d, []) => .success d
  | (_, e :: es) => .failure (e :: es)

/-- The `Schema` argument type of every public operation:
`ZodTypeAny | ZodRawShape` — a ready-made schema instance, or a plain mapping
from field name to field schema. -/
inductive Schema where
  | instanceOf : ZodObjectM → Schema
  | shape : List (String × FieldSchema) → Schema
deriving DecidableEq, Repr

/-- `getSchema` (`src/src/lib/parsers.ts` lines 60–62):
`schema instanceof ZodType ? schema : z.object(schema)`. -/
def getSchema : Schema → ZodObjectM
  | .instanceOf t => t
  | .shape sh => ZodObjectM.mk sh

/-- A value inside the JSON-like payload handed to SvelteKit's `error` /
`fail`: here always either a string or a field-error map. -/
inductive PayloadVal where
  | str : String → PayloadVal
  | errMap : List (String × List String) → PayloadVal
deriving DecidableEq, Repr

/-- The error thrown by SvelteKit's `error(status, body)`. -/
structure HttpError where
  status : Nat
  body : List (String × PayloadVal)
deriving DecidableEq, Repr

/-- The `ActionFailure` built by SvelteKit's `fail(status, data)`. -/
structure ActionFailureM where
  status : Nat
  data : List (String × PayloadVal)
deriving DecidableEq, Repr

/-- The result of the safe operations: `{ success: true, data }` on success,
`{ success: false, errors, response }` on failure (`SafeParseFailure` in
`src/src/lib/parsers.ts` lines 52–56). -/
inductive SafeParseData where
  | success : List (String × DataVal) → SafeParseData
  | failure : List (String × List String) → ActionFailureM → SafeParseData
deriving DecidableEq, Repr

/-- `parseSafe` (`src/src/lib/parsers.ts` lines 64–81): run
`getSchema(schema).safeParse(data)`; on failure return the tagged failure
carrying `result.error.flatten().fieldErrors` and the pre-built
`fail(400, { errors })` response; on success return the zod success. -/
def parseSafe (data : List (String × JsValue)) (schema : Schema) :
    SafeParseData :=
  match zodSafeParse (getSchema schema) data with
  | .success d => .success d
  | .failure errs =>
      .failure errs (ActionFailureM.mk 400 [("errors", .errMap errs)])

/-- `parse` (`src/src/lib/parsers.ts` lines 83–92): run
`getSchema(schema).safeParse(data)`; on failure throw
`error(400, { message: 'Parsing Failed', errors })`; on success return
`result.data`. -/
def parse (data : List (String × JsValue)) (schema : Schema) :
    Except HttpError (List (String × DataVal)) :=
  match zodSafeParse (getSchema schema) data with
  | .success d => .ok d
  | .failure errs =>
      .error (HttpError.mk 400
        [("message", .str "Parsing Failed"), ("errors", .errMap errs)])

/-- `parseSearchParamsSafe` (`src/src/lib/parsers.ts` lines 94–100). -/
def parseSearchParamsSafe (data : SearchSource) (schema : Schema) :
    SafeParseData :=
  parseSafe (getSearchParams data) schema

/-- `parseSearchParams` (`src/src/lib/parsers.ts` lines 102–108). -/
def parseSearchParams (data : SearchSource) (schema : Schema) :
    Except HttpError (List (String × DataVal)) :=
  parse (getSearchParams data) schema

/-- `parseFormDataSafe` (`src/src/lib/parsers.ts` lines 110–116), from the
point where the awaited form entries are available. -/
def parseFormDataSafe (data : FormSource) (schema : Schema) : SafeParseData :=
  parseSafe (getFormData data) schema

/-- `parseFormData` (`src/src/lib/parsers.ts` lines 118–124), from the point
where the awaited form entries are available. -/
def parseFormData (data : FormSource) (schema : Schema) :
    Except HttpError (List (String × DataVal)) :=
  parse (getFormData data) schema

/-- The argument of the route-parameter operations:
`RouteParams | RequestEvent`, where `RouteParams` is
`Partial<Record<string, string>>`. -/
inductive RouteSource where
  | routeParams : List (String × Option String) → RouteSource
  | requestEvent : RequestEventM → RouteSource
deriving DecidableEq, Repr

/-- Lookup in a `RouteParams` mapping: `some (some s)` when the key holds a
string, `some none` when it holds `undefined`, `none` when absent. -/
def routeLookup : List (String × Option String) → String → Option (Option String)
  | [], _ => none
  | (k, v) :: rest, key => if k = key then some v else routeLookup rest key

/-- What the property access `data.params` evaluates to on either shape of
`RouteSource`: on a raw `RouteParams` mapping it is the value stored under
the literal key `"params"` (a string, or `undefined`); on a `RequestEvent`
it is the params object. -/
inductive ParamsAttr where
  | undef : ParamsAttr
  | primStr : String → ParamsAttr
  | obj : List (String × Option String) → ParamsAttr
deriving DecidableEq, Repr

/-- Evaluate `(data as RequestEvent).params`. -/
def paramsAttr : RouteSource → ParamsAttr
  | .routeParams m =>
      match routeLookup m "params" with
      | some (some s) => .primStr s
      | some none => .undef
      | none => .undef
  | .requestEvent e => .obj e.params

/-- JavaScript `x instanceof Object`: true for objects, false for `undefined`
and for primitive strings. -/
def instanceofObject : ParamsAttr → Bool
  | .obj _ => true
  | _ => false

/-- `isRequestEvent` (`src/src/lib/parsers.ts` lines 126–128):
`(data as RequestEvent).params instanceof Object`. -/
def isRequestEvent (data : RouteSource) : Bool :=
  instanceofObject (paramsAttr data)

/-- The ternary `isRequestEvent(data) ? data.params : data` shared by
`parseRouteParamsSafe` and `parseRouteParams`.  When the check passed,
`data.params` is the object the check saw; the non-object fallbacks of that
branch, and the `requestEvent` case of the other branch, are unreachable
(`isRequestEvent` holds exactly on `requestEvent` values, proved below). -/
def selectRouteParams (data : RouteSource) : List (String × Option String) :=
  if isRequestEvent data then
    match paramsAttr data with
    | .obj m => m
    | .primStr _ => []
    | .undef => []
  else
    match data with
    | .routeParams m => m
    | .requestEvent _ => []

/-- A `RouteParams` mapping handed to zod as a JS object: a stored string is
a string value, a stored `undefined` is `undefined`. -/
def routeToJs (m : List (String × Option String)) : List (String × JsValue) :=
  m.map (fun kv => (kv.1, match kv.2 with | some s => JsValue.str s | none => JsValue.undef))

/-- `parseRouteParamsSafe` (`src/src/lib/parsers.ts` lines 130–136). -/
def parseRouteParamsSafe (data : RouteSource) (schema : Schema) :
    SafeParseData :=
  parseSafe (routeToJs (selectRouteParams data)) schema

/-- `parseRouteParams` (`src/src/lib/parsers.ts` lines 138–144). -/
def parseRouteParams (data : RouteSource) (schema : Schema) :
    Except HttpError (List (String × DataVal)) :=
  parse (routeToJs (selectRouteParams data)) schema

/-- The schema of the repository's tests: `{ a: z.number({ coerce: true }),
b: z.string() }`, supplied as a plain shape. -/
def schemaAB : Schema :=
  .shape [("a", .numberCoerce), ("b", .string)]


/-- The property every value of the canonical mapping satisfies: it is a
single string, or an array of at least two strings. -/
def CanonicalVal (v : JsValue) : Prop :=
  (∃ s, v = JsValue.str s) ∨ (∃ l, v = JsValue.strList l ∧ 2 ≤ l.length)

lemma jsLookup_mem :
    ∀ (params : List (String × JsValue)) (key : String) (v : JsValue),
      jsLookup params key = some v → (key, v) ∈ params := by
  intro params
  induction params with
  | nil => intro key v h; simp [jsLookup] at h
  | cons kv rest ih =>
      intro key v h
      obtain ⟨k, w⟩ := kv
      by_cases hk : k = key
      · subst hk
        simp [jsLookup] at h
        subst h
        exact List.mem_cons_self _ _
      · simp [jsLookup, hk] at h
        exact List.mem_cons_of_mem _ (ih key v h)

lemma jsSet_mem :
    ∀ (params : List (String × JsValue)) (key : String) (v : JsValue)
      (kv : String × JsValue),
      kv ∈ jsSet params key v → kv.2 = v ∨ kv ∈ params := by
  intro params
  induction params with
  | nil =>
      intro key v kv h
      simp [jsSet] at h
      subst h
      left; rfl
  | cons hd rest ih =>
      intro key v kv h
      obtain ⟨k, w⟩ := hd
      by_cases hk : k = key
      · simp [jsSet, hk] at h
        rcases h with h | h
        · subst h; left; rfl
        · right; exact List.mem_cons_of_mem _ h
      · simp only [jsSet, if_neg hk, List.mem_cons] at h
        rcases h with h | h
        · subst h; right; exact List.mem_cons_self _ _
        · rcases ih key v kv h with h2 | h2
          · left; exact h2
          · right; exact List.mem_cons_of_mem _ h2

lemma insertPair_preserves (params : List (String × JsValue)) (key value : String)
    (h : ∀ kv ∈ params, CanonicalVal kv.2) :
    ∀ kv ∈ insertPair params key value, CanonicalVal kv.2 := by
  intro kv hkv
  cases hl : jsLookup params key with
  | none =>
      simp only [insertPair, hl] at hkv
      rcases jsSet_mem _ _ _ _ hkv with h2 | h2
      · exact Or.inl ⟨value, h2⟩
      · exact h kv h2
  | some w =>
      cases w with
      | str s =>
          simp only [insertPair, hl] at hkv
          by_cases he : s.isEmpty
          · rw [if_pos he] at hkv
            rcases jsSet_mem _ _ _ _ hkv with h2 | h2
            · exact Or.inl ⟨value, h2⟩
            · exact h kv h2
          · rw [if_neg he] at hkv
            rcases jsSet_mem _ _ _ _ hkv with h2 | h2
            · exact Or.inr ⟨[s, value], h2, by simp⟩
            · exact h kv h2
      | strList l =>
          simp only [insertPair, hl] at hkv
          rcases jsSet_mem _ _ _ _ hkv with h2 | h2
          · refine Or.inr ⟨l ++ [value], h2, ?_⟩
            have hmem := h (key, JsValue.strList l) (jsLookup_mem _ _ _ hl)
            rcases hmem with ⟨s, hs⟩ | ⟨l2, hl2, hlen⟩
            · cases hs
            · cases hl2
              simp only [List.length_append, List.length_singleton]
              omega
          · exact h kv h2
      | undef =>
          simp only [insertPair, hl] at hkv
          rcases jsSet_mem _ _ _ _ hkv with h2 | h2
          · exact Or.inl ⟨value, h2⟩
          · exact h kv h2

lemma collapse_fold_invariant :
    ∀ (pairs : List (String × String)) (params : List (String × JsValue)),
      (∀ kv ∈ params, CanonicalVal kv.2) →
      ∀ kv ∈ pairs.foldl (fun p q => insertPair p q.1 q.2) params, CanonicalVal kv.2 := by
  intro pairs
  induction pairs with
  | nil => intro params h; exact h
  | cons q rest ih =>
      intro params h
      exact ih (insertPair params q.1 q.2) (insertPair_preserves params q.1 q.2 h)

lemma collapsePairs_canonical (pairs : List (String × String)) :
    ∀ kv ∈ collapsePairs pairs, CanonicalVal kv.2 := by
  intro kv hkv
  exact collapse_fold_invariant pairs [] (by intro kv h; simp at h) kv hkv

lemma isRequestEvent_routeParams (m : List (String × Option String)) :
    isRequestEvent (RouteSource.routeParams m) = false := by
  cases h : routeLookup m "params" with
  | none => simp [isRequestEvent, paramsAttr, h, instanceofObject]
  | some v => cases v <;> simp [isRequestEvent, paramsAttr, h, instanceofObject]

lemma selectRouteParams_routeParams (m : List (String × Option String)) :
    selectRouteParams (RouteSource.routeParams m) = m := by
  simp [selectRouteParams, isRequestEvent_routeParams m]

lemma selectRouteParams_requestEvent (e : RequestEventM) :
    selectRouteParams (RouteSource.requestEvent e) = e.params := rfl

/-- C1: the claim states that every repeated key of a query-string source
maps to a sequence of all its values in source order.  The code disagrees:
because `params[key] = current ? [current, value] : value` tests JavaScript
truthiness rather than presence, a previously stored empty-string value is
falsy and is overwritten instead of being joined into a sequence.  On the
query string `a=&a=x`, the repeated key `a` ends up as the single string
`"x"`, not the sequence `["", "x"]` the stated per-pair algorithm
("if the key has not been seen, store the single string value; if seen once
already, convert the stored value into a two-element sequence") prescribes. -/
theorem C1_empty_first_value_dropped :
    getSearchParams (.urlSearchParams [("a", ""), ("a", "x")]) =
      [("a", JsValue.str "x")] ∧
    getSearchParams (.urlSearchParams [("a", ""), ("a", "x")]) ≠
      [("a", JsValue.strList ["", "x"])] := by
  constructor
  · rfl
  · decide

/-- C2: for every input whose validation fails, each strict operation throws
`error(400, { message: 'Parsing Failed', errors })` where `errors` is the
validator's flattened per-field error map, and each safe operation returns
(never throws) the tagged failure carrying the same map together with the
pre-built `fail(400, { errors })` response. -/
theorem C2_invalid_input_400_and_tagged_failure
    (schema : Schema)
    (d : List (String × JsValue)) (sp : SearchSource) (fs : FormSource)
    (rs : RouteSource)
    (e1 e2 e3 e4 : List (String × List String))
    (h1 : zodSafeParse (getSchema schema) d = .failure e1)
    (h2 : zodSafeParse (getSchema schema) (getSearchParams sp) = .failure e2)
    (h3 : zodSafeParse (getSchema schema) (getFormData fs) = .failure e3)
    (h4 : zodSafeParse (getSchema schema) (routeToJs (selectRouteParams rs)) =
      .failure e4) :
    parse d schema = .error (HttpError.mk 400
      [("message", .str "Parsing Failed"), ("errors", .errMap e1)]) ∧
    parseSafe d schema =
      .failure e1 (ActionFailureM.mk 400 [("errors", .errMap e1)]) ∧
    parseSearchParams sp schema = .error (HttpError.mk 400
      [("message", .str "Parsing Failed"), ("errors", .errMap e2)]) ∧
    parseSearchParamsSafe sp schema =
      .failure e2 (ActionFailureM.mk 400 [("errors", .errMap e2)]) ∧
    parseFormData fs schema = .error (HttpError.mk 400
      [("message", .str "Parsing Failed"), ("errors", .errMap e3)]) ∧
    parseFormDataSafe fs schema =
      .failure e3 (ActionFailureM.mk 400 [("errors", .errMap e3)]) ∧
    parseRouteParams rs schema = .error (HttpError.mk 400
      [("message", .str "Parsing Failed"), ("errors", .errMap e4)]) ∧
    parseRouteParamsSafe rs schema =
      .failure e4 (ActionFailureM.mk 400 [("errors", .errMap e4)]) := by
  refine ⟨?_, ?_, ?_, ?_, ?_, ?_, ?_, ?_⟩ <;>
    simp [parse, parseSafe, parseSearchParams, parseSearchParamsSafe,
      parseFormData, parseFormDataSafe, parseRouteParams, parseRouteParamsSafe,
      h1, h2, h3, h4]

/-- Witness for C2 at the test inputs `a=test, b=test` with the schema
`{ a: z.number({ coerce: true }), b: z.string() }`. -/
theorem C2_invalid_input_400_and_tagged_failure_witness :
    parseSearchParams (.urlSearchParams [("a", "test"), ("b", "test")]) schemaAB =
      .error (HttpError.mk 400
        [("message", .str "Parsing Failed"),
         ("errors", .errMap [("a", ["Expected number, received nan"])])]) ∧
    parseSearchParamsSafe (.urlSearchParams [("a", "test"), ("b", "test")]) schemaAB =
      .failure [("a", ["Expected number, received nan"])]
        (ActionFailureM.mk 400
          [("errors", .errMap [("a", ["Expected number, received nan"])])]) := by
  have h := C2_invalid_input_400_and_tagged_failure schemaAB
    [("a", JsValue.str "test"), ("b", JsValue.str "test")]
    (.urlSearchParams [("a", "test"), ("b", "test")])
    (.formData [("a", "test"), ("b", "test")])
    (.routeParams [("a", some "test"), ("b", some "test")])
    [("a", ["Expected number, received nan"])]
    [("a", ["Expected number, received nan"])]
    [("a", ["Expected number, received nan"])]
    [("a", ["Expected number, received nan"])]
    (by decide) (by decide) (by decide) (by decide)
  exact ⟨h.2.2.1, h.2.2.2.1⟩

/-- C3 counterexample: the claim states the failing example's 400 error has
payload exactly `{ errors: { a: ["Expected number, received nan"] } }`.  The
code throws `error(400, { message: 'Parsing Failed', errors })`, so the
payload also carries the `message` member and is not exactly that object. -/
theorem C3_payload_not_exactly_errors_only :
    parseSearchParams (.urlSearchParams [("a", "test"), ("b", "test")]) schemaAB ≠
      .error (HttpError.mk 400
        [("errors", .errMap [("a", ["Expected number, received nan"])])]) := by
  intro h
  have hval : parseSearchParams (.urlSearchParams [("a", "test"), ("b", "test")]) schemaAB =
      .error (HttpError.mk 400
        [("message", .str "Parsing Failed"),
         ("errors", .errMap [("a", ["Expected number, received nan"])])]) := rfl
  rw [hval] at h
  have := Except.error.inj h
  exact absurd this (by decide)

/-- C3 (amended): with the schema `{ a: z.number({ coerce: true }),
b: z.string() }`, `parseSearchParams` on `?a=1&b=test` returns
`{ a: 1, b: "test" }`, and on `?a=test&b=test` throws a 400 error whose
payload is `{ message: 'Parsing Failed',
errors: { a: ["Expected number, received nan"] } }` — its errors map exactly
`{ a: ["Expected number, received nan"] }`. -/
theorem C3_example_parse_results :
    parseSearchParams (.urlSearchParams [("a", "1"), ("b", "test")]) schemaAB =
      .ok [("a", DataVal.num 1), ("b", DataVal.str "test")] ∧
    parseSearchParams (.urlSearchParams [("a", "test"), ("b", "test")]) schemaAB =
      .error (HttpError.mk 400
        [("message", .str "Parsing Failed"),
         ("errors", .errMap [("a", ["Expected number, received nan"])])]) :=
  ⟨rfl, rfl⟩

/-- C4: for every input whose validation succeeds, the strict operation
returns exactly the parsed value that the corresponding safe operation wraps
in its tagged success, for all four operation pairs. -/
theorem C4_strict_safe_agree_on_valid
    (schema : Schema)
    (d : List (String × JsValue)) (sp : SearchSource) (fs : FormSource)
    (rs : RouteSource)
    (d1 d2 d3 d4 : List (String × DataVal))
    (h1 : zodSafeParse (getSchema schema) d = .success d1)
    (h2 : zodSafeParse (getSchema schema) (getSearchParams sp) = .success d2)
    (h3 : zodSafeParse (getSchema schema) (getFormData fs) = .success d3)
    (h4 : zodSafeParse (getSchema schema) (routeToJs (selectRouteParams rs)) =
      .success d4) :
    parse d schema = .ok d1 ∧ parseSafe d schema = .success d1 ∧
    parseSearchParams sp schema = .ok d2 ∧
    parseSearchParamsSafe sp schema = .success d2 ∧
    parseFormData fs schema = .ok d3 ∧
    parseFormDataSafe fs schema = .success d3 ∧
    parseRouteParams rs schema = .ok d4 ∧
    parseRouteParamsSafe rs schema = .success d4 := by
  refine ⟨?_, ?_, ?_, ?_, ?_, ?_, ?_, ?_⟩ <;>
    simp [parse, parseSafe, parseSearchParams, parseSearchParamsSafe,
      parseFormData, parseFormDataSafe, parseRouteParams, parseRouteParamsSafe,
      h1, h2, h3, h4]

/-- Witness for C4 at the test inputs `a=1, b=test` with the schema
`{ a: z.number({ coerce: true }), b: z.string() }`. -/
theorem C4_strict_safe_agree_on_valid_witness :
    parseSearchParams (.urlSearchParams [("a", "1"), ("b", "test")]) schemaAB =
      .ok [("a", DataVal.num 1), ("b", DataVal.str "test")] ∧
    parseSearchParamsSafe (.urlSearchParams [("a", "1"), ("b", "test")]) schemaAB =
      .success [("a", DataVal.num 1), ("b", DataVal.str "test")] ∧
    parseRouteParams (.routeParams [("a", some "1"), ("b", some "test")]) schemaAB =
      .ok [("a", DataVal.num 1), ("b", DataVal.str "test")] ∧
    parseRouteParamsSafe (.routeParams [("a", some "1"), ("b", some "test")]) schemaAB =
      .success [("a", DataVal.num 1), ("b", DataVal.str "test")] := by
  have h := C4_strict_safe_agree_on_valid schemaAB
    [("a", JsValue.str "1"), ("b", JsValue.str "test")]
    (.urlSearchParams [("a", "1"), ("b", "test")])
    (.formData [("a", "1"), ("b", "test")])
    (.routeParams [("a", some "1"), ("b", some "test")])
    [("a", DataVal.num 1), ("b", DataVal.str "test")]
    [("a", DataVal.num 1), ("b", DataVal.str "test")]
    [("a", DataVal.num 1), ("b", DataVal.str "test")]
    [("a", DataVal.num 1), ("b", DataVal.str "test")]
    (by decide) (by decide) (by decide) (by decide)
  exact ⟨h.2.2.1, h.2.2.2.1, h.2.2.2.2.2.2.1, h.2.2.2.2.2.2.2⟩

/-- C5: `getSchema` returns a schema instance unchanged and wraps a plain
field mapping into the object schema with exactly those fields, so parsing
with a plain mapping and with the equivalent pre-built object schema give
identical results; the adaptation is a total function and cannot fail. -/
theorem C5_schema_adapter_equivalence
    (t : ZodObjectM) (sh : List (String × FieldSchema))
    (d : List (String × JsValue)) :
    getSchema (.instanceOf t) = t ∧
    getSchema (.shape sh) = ZodObjectM.mk sh ∧
    parseSafe d (.shape sh) = parseSafe d (.instanceOf (ZodObjectM.mk sh)) ∧
    parse d (.shape sh) = parse d (.instanceOf (ZodObjectM.mk sh)) :=
  ⟨rfl, rfl, rfl, rfl⟩

/-- C6: route-parameter parsing of a plain mapping and of a request event
whose `params` attribute is that same mapping produce identical results, for
both the strict and the safe operation, whatever the event's other
attributes are. -/
theorem C6_route_plain_vs_wrapper
    (m : List (String × Option String)) (qs fd : List (String × String))
    (schema : Schema) :
    parseRouteParams (.routeParams m) schema =
      parseRouteParams (.requestEvent (RequestEventM.mk qs fd m)) schema ∧
    parseRouteParamsSafe (.routeParams m) schema =
      parseRouteParamsSafe (.requestEvent (RequestEventM.mk qs fd m)) schema := by
  constructor <;>
    simp [parseRouteParams, parseRouteParamsSafe,
      selectRouteParams_routeParams, selectRouteParams_requestEvent]

/-- C7: `getFormData` feeds the obtained form entries through exactly the
same collapsing function as the query-string path, so the form fields
`a=1, b=test` under `{ a: z.number({ coerce: true }), b: z.string() }`
produce a result identical to the query string `?a=1&b=test`. -/
theorem C7_form_reuses_search_collapsing
    (fd : List (String × String)) (e : RequestEventM) :
    getFormData (.formData fd) = getSearchParams (.urlSearchParams fd) ∧
    getFormData (.requestEvent e) =
      getSearchParams (.urlSearchParams e.requestFormData) ∧
    parseFormData (.formData [("a", "1"), ("b", "test")]) schemaAB =
      parseSearchParams (.urlSearchParams [("a", "1"), ("b", "test")]) schemaAB ∧
    parseFormData (.formData [("a", "1"), ("b", "test")]) schemaAB =
      .ok [("a", DataVal.num 1), ("b", DataVal.str "test")] :=
  ⟨rfl, rfl, rfl, rfl⟩

/-- C8: every public operation is a pure function of its arguments: a repeated
call with the same data and schema gives an equal result, and the result of
each event-taking operation depends only on the one event attribute that
operation reads, so no call can observe any effect of an earlier call. -/
theorem C8_deterministic_and_stateless
    (schema : Schema) (d : List (String × JsValue))
    (e1 e2 f1 f2 r1 r2 : RequestEventM)
    (hq : e1.urlSearchParams = e2.urlSearchParams)
    (hf : f1.requestFormData = f2.requestFormData)
    (hp : r1.params = r2.params) :
    parse d schema = parse d schema ∧
    parseSafe d schema = parseSafe d schema ∧
    parseSearchParams (.requestEvent e1) schema =
      parseSearchParams (.requestEvent e2) schema ∧
    parseSearchParamsSafe (.requestEvent e1) schema =
      parseSearchParamsSafe (.requestEvent e2) schema ∧
    parseFormData (.requestEvent f1) schema =
      parseFormData (.requestEvent f2) schema ∧
    parseFormDataSafe (.requestEvent f1) schema =
      parseFormDataSafe (.requestEvent f2) schema ∧
    parseRouteParams (.requestEvent r1) schema =
      parseRouteParams (.requestEvent r2) schema ∧
    parseRouteParamsSafe (.requestEvent r1) schema =
      parseRouteParamsSafe (.requestEvent r2) schema := by
  refine ⟨rfl, rfl, ?_, ?_, ?_, ?_, ?_, ?_⟩ <;>
    simp [parseSearchParams, parseSearchParamsSafe, parseFormData,
      parseFormDataSafe, parseRouteParams, parseRouteParamsSafe,
      getSearchParams, getFormData, selectRouteParams_requestEvent,
      hq, hf, hp]

/-- Witness for C8: two events that agree on `url.searchParams` but differ in
their form entries and route params give the same search-param result. -/
theorem C8_deterministic_and_stateless_witness :
    parseSearchParams
      (.requestEvent (RequestEventM.mk [("a", "1"), ("b", "test")] [] [])) schemaAB =
    parseSearchParams
      (.requestEvent (RequestEventM.mk [("a", "1"), ("b", "test")]
        [("x", "y")] [("p", some "q")])) schemaAB :=
  (C8_deterministic_and_stateless schemaAB []
    (RequestEventM.mk [("a", "1"), ("b", "test")] [] [])
    (RequestEventM.mk [("a", "1"), ("b", "test")] [("x", "y")] [("p", some "q")])
    (RequestEventM.mk [] [] []) (RequestEventM.mk [] [] [])
    (RequestEventM.mk [] [] []) (RequestEventM.mk [] [] [])
    rfl rfl rfl).2.2.1

/-- C9: in the canonical mapping built by `getSearchParams` (and reused by
`getFormData`), every stored value is either a single string or an array of
at least two strings; no key ever maps to an empty or one-element array. -/
theorem C9_canonical_value_shapes (src : SearchSource) (fsrc : FormSource) :
    (∀ kv ∈ getSearchParams src,
      (∃ s, kv.2 = JsValue.str s) ∨
      (∃ l, kv.2 = JsValue.strList l ∧ 2 ≤ l.length)) ∧
    (∀ kv ∈ getFormData fsrc,
      (∃ s, kv.2 = JsValue.str s) ∨
      (∃ l, kv.2 = JsValue.strList l ∧ 2 ≤ l.length)) := by
  constructor
  · intro kv hkv
    cases src with
    | urlSearchParams l => exact collapsePairs_canonical l kv hkv
    | requestEvent e => exact collapsePairs_canonical e.urlSearchParams kv hkv
  · intro kv hkv
    cases fsrc with
    | formData l => exact collapsePairs_canonical l kv hkv
    | requestEvent e => exact collapsePairs_canonical e.requestFormData kv hkv

/-- Witness for C9 on the query string `a=1&a=2&b=x`: the repeated key holds
a two-element array and the singleton key a single string, and both entries
satisfy the stated shape property. -/
theorem C9_canonical_value_shapes_witness :
    (("a", JsValue.strList ["1", "2"]) ∈
      getSearchParams (.urlSearchParams [("a", "1"), ("a", "2"), ("b", "x")])) ∧
    ((∃ s, (("a", JsValue.strList ["1", "2"]) : String × JsValue).2 = JsValue.str s) ∨
     (∃ l, (("a", JsValue.strList ["1", "2"]) : String × JsValue).2 =
        JsValue.strList l ∧ 2 ≤ l.length)) :=
  ⟨by decide,
   (C9_canonical_value_shapes
      (.urlSearchParams [("a", "1"), ("a", "2"), ("b", "x")])
      (.formData [])).1
    ("a", JsValue.strList ["1", "2"]) (by decide)⟩

/-- C10: on a raw route-parameter mapping (values strings or absent)
`isRequestEvent` is false — even when the mapping holds a key literally named
"params", whose value is a primitive and hence fails `instanceof Object` — so
the route operations validate the raw mapping itself; on a request event
`isRequestEvent` is true and the event's `params` mapping is what gets
validated. -/
theorem C10_isRequestEvent_discrimination
    (m : List (String × Option String)) (e : RequestEventM) (schema : Schema) :
    isRequestEvent (.routeParams m) = false ∧
    isRequestEvent (.requestEvent e) = true ∧
    parseRouteParams (.routeParams m) schema = parse (routeToJs m) schema ∧
    parseRouteParamsSafe (.routeParams m) schema =
      parseSafe (routeToJs m) schema ∧
    parseRouteParams (.requestEvent e) schema =
      parse (routeToJs e.params) schema ∧
    parseRouteParamsSafe (.requestEvent e) schema =
      parseSafe (routeToJs e.params) schema :=
  ⟨isRequestEvent_routeParams m, rfl,
   by simp [parseRouteParams, selectRouteParams_routeParams],
   by simp [parseRouteParamsSafe, selectRouteParams_routeParams],
   rfl, rfl⟩
